import Mathlib

/-!
Verification of the persisted-state hook (src/use-local-storage.ts) and the
stable-callback hook (src/use-event-callback.ts) of the react-hooks library.

The embedding is a shallow one.  JavaScript runtime values that can flow
through the generic type parameter T of the hooks are modelled by the
inductive type JSVal, which includes the JS undefined and null values that
the untyped casts in the source can produce.  The browser environment
(window presence, the key-value storage, and the failure modes of its
getItem and setItem calls) is an explicit Env record; a thrown JS exception
is modelled by the Except monad, and a try/catch block in the source becomes
a match on the Except value.  The platform JSON codec (JSON.parse and
JSON.stringify, which are host primitives, not code of this repository) is a
parameter of type JsonPlatform; theorems state their hypotheses about it
explicitly, and witnesses instantiate it with the concrete executable codec
testPlatform below.  Diagnostic logging (console.warn) is modelled by a
Boolean flag in the result of each operation.
-/

deriving instance DecidableEq for Except

/-- A JavaScript runtime value, as far as the hooks can observe it. -/
inductive JSVal where
  | undef : JSVal
  | null : JSVal
  | jsBool : Bool → JSVal
  | num : Int → JSVal
  | str : String → JSVal
  deriving DecidableEq, Repr

/-- The platform JSON codec.  JSON.parse throws on invalid input, which is
modelled by Except; JSON.stringify can fail to produce a string. -/
structure JsonPlatform where
  stringify : JSVal → Except Unit String
  parse : String → Except Unit JSVal

/-- The browser environment seen by the hook: whether window exists, the
current contents of window.localStorage, and whether its getItem and setItem
calls throw. -/
structure Env where
  hasWindow : Bool
  storage : String → Option String
  getItemThrows : Bool
  setItemThrows : Bool

/-- window.localStorage.getItem: returns the stored string or null,
or throws. -/
def Env.getItem (env : Env) (k : String) : Except Unit (Option String) :=
  if env.getItemThrows then Except.error () else Except.ok (env.storage k)

/-- The storage contents after a successful setItem call. -/
def setStore (st : String → Option String) (k v : String) :
    String → Option String :=
  fun q => if q = k then some v else st q

/-- JS truthiness of a value of TypeScript type string or null: null and the
empty string are falsy, every other string is truthy. -/
def strTruthy : Option String → Bool
  | none => false
  | some s => s != ""

/-- The untyped cast of the stored item to T used by the raw branch of
readValue: a stored string stays itself, an absent item is the JS null. -/
def rawCast : Option String → JSVal
  | none => JSVal.null
  | some s => JSVal.str s

/-- The options record of useLocalStorage. -/
structure UseLocalStorageOptions where
  raw : Bool
  serializer : Option (JSVal → Except Unit String)
  deserializer : Option (String → Except Unit JSVal)

/-- The default options value (the TS default argument is the empty object,
so raw is falsy and no custom serializer or deserializer is present). -/
def defaultOptions : UseLocalStorageOptions :=
  ⟨false, none, none⟩

/-- Raw-mode options. -/
def rawOptions : UseLocalStorageOptions :=
  ⟨true, none, none⟩

/-- Options carrying a custom deserializer. -/
def deserOptions (d : String → Except Unit JSVal) : UseLocalStorageOptions :=
  ⟨false, none, some d⟩

/-- Options carrying a custom serializer. -/
def serOptions (s : JSVal → Except Unit String) : UseLocalStorageOptions :=
  ⟨false, some s, none⟩

/-- parseJSON from use-local-storage.ts.  The argument has TypeScript type
string or null.  If the string is exactly "undefined" the JS undefined value
is returned without touching JSON.parse; otherwise JSON.parse runs on the
string (null replaced by the empty string), and a thrown parse error is
caught inside parseJSON itself, which then warns and returns undefined.  The
Boolean result records whether console.warn ran. -/
def parseJSON (P : JsonPlatform) (value : Option String) : JSVal × Bool :=
  if value == some "undefined" then (JSVal.undef, false)
  else
    match P.parse (value.getD "") with
    | Except.ok v => (v, false)
    | Except.error _ => (JSVal.undef, true)

/-- readValue from use-local-storage.ts.  Without a window it returns the
initial value.  Otherwise it fetches the item inside a try/catch: a throwing
getItem (or a throwing custom deserializer) is caught, warned about, and
degraded to the initial value.  In raw mode the item is returned through the
untyped cast; with a custom deserializer the item is deserialized when
truthy; otherwise a truthy item goes through parseJSON.  The Boolean result
records whether console.warn ran. -/
def readValue (P : JsonPlatform) (opts : UseLocalStorageOptions) (env : Env)
    (key : String) (initialValue : JSVal) : JSVal × Bool :=
  if !env.hasWindow then (initialValue, false)
  else
    match env.getItem key with
    | Except.error _ => (initialValue, true)
    | Except.ok item =>
      if opts.raw then (rawCast item, false)
      else
        match opts.deserializer with
        | some d =>
          if strTruthy item then
            match d (item.getD "") with
            | Except.ok v => (v, false)
            | Except.error _ => (initialValue, true)
          else (initialValue, false)
        | none =>
          if strTruthy item then parseJSON P item
          else (initialValue, false)

/-- The value the hook returns on its first render: useState is seeded with
readValue. -/
def useLocalStorageInitial (P : JsonPlatform) (opts : UseLocalStorageOptions)
    (env : Env) (key : String) (initialValue : JSVal) : JSVal :=
  (readValue P opts env key initialValue).1

/-- A small executable JSON codec used to instantiate the JsonPlatform
parameter in witnesses and counterexamples. -/
def testPlatform : JsonPlatform where
  stringify v :=
    match v with
    | JSVal.num n => Except.ok (toString n)
    | JSVal.jsBool b => Except.ok (if b then "true" else "false")
    | _ => Except.error ()
  parse s :=
    if s = "4" then Except.ok (JSVal.num 4)
    else if s = "5" then Except.ok (JSVal.num 5)
    else if s = "7" then Except.ok (JSVal.num 7)
    else if s = "true" then Except.ok (JSVal.jsBool true)
    else Except.error ()

/-- An environment with a window, an empty storage, and no throwing calls. -/
def envEmpty : Env :=
  ⟨true, fun _ => none, false, false⟩

/-- An environment whose storage holds an unparsable string under key k. -/
def envBadItem : Env :=
  ⟨true, fun q => if q = "k" then some "!!!" else none, false, false⟩

/-- The argument of the setter: the TS union of a literal new value and an
updater function of the previous value (SetStateAction).  The source decides
between the two with an instanceof Function test. -/
def resolveAction (stored : JSVal) (value : JSVal ⊕ (JSVal → JSVal)) : JSVal :=
  match value with
  | Sum.inl v => v
  | Sum.inr f => f stored

/-- The string coercion that window.localStorage.setItem applies to its
argument (relevant in raw mode, where the source passes the new value to
setItem through an untyped cast). -/
def jsToString : JSVal → String
  | JSVal.undef => "undefined"
  | JSVal.null => "null"
  | JSVal.jsBool b => if b then "true" else "false"
  | JSVal.num n => toString n
  | JSVal.str s => s

/-- The string handed to setItem by setValue, following the branch order of
the source: raw mode passes the value through (coerced by setItem), a custom
serializer is used when supplied, and JSON.stringify otherwise.  The custom
serializer and JSON.stringify may throw. -/
def serializeValue (P : JsonPlatform) (opts : UseLocalStorageOptions)
    (v : JSVal) : Except Unit String :=
  if opts.raw then Except.ok (jsToString v)
  else
    match opts.serializer with
    | some s => s v
    | none => P.stringify v

/-- Everything a call of the setter does: the environment afterwards (the
storage may have changed), the component state afterwards, whether the
same-document "local-storage" event was dispatched, and whether console.warn
ran. -/
structure SetOutcome where
  env : Env
  storedValue : JSVal
  dispatched : Bool
  warned : Bool

/-- The key carried by the same-document event dispatched by setValue.  The
source dispatches a plain Event (line 83), which has no key property, so the
handler sees undefined there. -/
def localStorageEventKey : Option String := none

/-- setValue from use-local-storage.ts.  Without a window it returns
immediately.  Otherwise, inside a try/catch: the new value is the updater
applied to the previous state when the argument is a function, or the
argument itself; it is serialized per the mode and written to storage under
the key; the component state is set to the new value; and the
"local-storage" event is dispatched.  A throw from the serializer or from
setItem is caught and warned about, leaving storage, state, and the event
undone. -/
def setValue (P : JsonPlatform) (opts : UseLocalStorageOptions) (env : Env)
    (key : String) (storedValue : JSVal) (value : JSVal ⊕ (JSVal → JSVal)) :
    SetOutcome :=
  if !env.hasWindow then ⟨env, storedValue, false, false⟩
  else
    let newValue := resolveAction storedValue value
    match serializeValue P opts newValue with
    | Except.error _ => ⟨env, storedValue, false, true⟩
    | Except.ok s =>
      if env.setItemThrows then ⟨env, storedValue, false, true⟩
      else ⟨{ env with storage := setStore env.storage key s },
            newValue, true, false⟩

/-- handleStorageChange from use-local-storage.ts.  The event key is read
through an untyped cast, so a CustomEvent (which has no key property) yields
undefined.  When the key is truthy and differs from the hook key the handler
returns without touching state; otherwise it re-reads the value from storage
into state.  The result is the component state after the handler ran. -/
def handleStorageChange (P : JsonPlatform) (opts : UseLocalStorageOptions)
    (env : Env) (key : String) (initialValue stored : JSVal)
    (eventKey : Option String) : JSVal :=
  if strTruthy eventKey && eventKey != some key then stored
  else (readValue P opts env key initialValue).1

/-!
The stable-callback hook (src/use-event-callback.ts).

The hook allocates one ref cell at mount whose initial content throws, and
whose content is replaced by the latest wrapped function in a layout effect
after each commit; the returned wrapper reads the cell at call time.  An
invocation is modelled by Except String, the error being the thrown message.
The ref cell content after a sequence of committed renders is the fold of
the layout-effect writes over the render list.  (The effect carries the
dependency list [fn], which only skips the write when the function did not
change; the skipped write would store what the cell already holds, so the
unconditional fold is observationally the same.)
-/

/-- The message thrown when the wrapper is invoked before the first layout
effect has run. -/
def renderErrorMessage : String :=
  "cannot call an event handler while rendering"

/-- The ref cell of useEventCallback, holding the function the wrapper will
invoke. -/
structure EventCallbackRef (α ρ : Type) where
  current : α → Except String ρ

/-- The cell content installed by useRef at mount: a function that throws. -/
def initialRef (α ρ : Type) : EventCallbackRef α ρ :=
  ⟨fun _ => Except.error renderErrorMessage⟩

/-- One run of the layout effect: the cell now holds the wrapped function
supplied at that render (which never throws by itself). -/
def applyLayoutEffect {α ρ : Type} (fn : α → ρ) (_ : EventCallbackRef α ρ) :
    EventCallbackRef α ρ :=
  ⟨fun a => Except.ok (fn a)⟩

/-- The cell content after the given sequence of committed renders, each
supplying its wrapped function. -/
def refAfterRenders {α ρ : Type} (fns : List (α → ρ)) : EventCallbackRef α ρ :=
  fns.foldl (fun r fn => applyLayoutEffect fn r) (initialRef α ρ)

/-- The wrapper returned by the hook: it forwards its arguments to whatever
the ref cell currently holds. -/
def wrapper {α ρ : Type} (r : EventCallbackRef α ρ) (a : α) :
    Except String ρ :=
  r.current a

/-- The identity semantics of useCallback: the render index at which the
currently returned closure was created.  A new closure is created at a
render exactly when the dependency changed since the previous render;
deps n is the dependency value seen at render n. -/
def useCallbackCreatedAt (deps : Nat → Nat) : Nat → Nat
  | 0 => 0
  | n + 1 =>
    if deps (n + 1) = deps n then useCallbackCreatedAt deps n else n + 1

/-!  Helper lemmas shared by several claim theorems. -/

/-- After a successful write of a value whose serialization round-trips
through the platform codec, a read of the same key in default JSON mode
recovers the value (and does not warn). -/
theorem readValue_after_set (P : JsonPlatform) (env : Env) (key : String)
    (stored init v : JSVal) (s : String)
    (hw : env.hasWindow = true) (hg : env.getItemThrows = false)
    (hset : env.setItemThrows = false)
    (hser : P.stringify v = Except.ok s) (hne : s ≠ "")
    (hnu : s ≠ "undefined") (hpar : P.parse s = Except.ok v) :
    readValue P defaultOptions
      (setValue P defaultOptions env key stored (Sum.inl v)).env key init
      = (v, false) := by
  simp [setValue, serializeValue, resolveAction, defaultOptions, hser, hset,
    hw, readValue, Env.getItem, hg, setStore, strTruthy, parseJSON, hne, hnu,
    hpar]

/-- Folding the layout-effect writes of a nonempty render list leaves the
last supplied function in the cell, whatever the cell held before. -/
theorem foldl_layoutEffect_last {α ρ : Type} (fns : List (α → ρ))
    (fn : α → ρ) (h : fns.getLast? = some fn) (r : EventCallbackRef α ρ) :
    fns.foldl (fun r g => applyLayoutEffect g r) r
      = ⟨fun a => Except.ok (fn a)⟩ := by
  induction fns generalizing r with
  | nil => simp at h
  | cons x xs ih =>
    cases xs with
    | nil =>
      simp at h
      subst h
      rfl
    | cons y ys =>
      have h2 : (y :: ys).getLast? = some fn := by
        simpa [List.getLast?_cons_cons] using h
      simpa [List.foldl] using ih h2 (applyLayoutEffect x r)

/-!  The claims. -/

/-- C1.  The claim states that when the stored string is present but JSON
deserialization fails, the read path returns the caller-supplied default.
It does not: parseJSON catches the parse error itself and returns the JS
undefined value, which readValue casts to T and returns, so the caller gets
undefined rather than the default.  Concrete refutation: key "k" holds the
unparsable string "!!!" and the default is the number 7, yet the hook does
not return 7. -/
theorem C1_counterexample :
    (readValue testPlatform defaultOptions envBadItem "k" (JSVal.num 7)).1
      ≠ JSVal.num 7 := by
  decide

/-- C1 amended.  In default JSON mode, when the stored string for the key is
present (truthy and not the literal "undefined") and deserialization of it
fails, the read path logs a diagnostic and returns the JS undefined value —
not the caller-supplied default — and never raises to the caller (the result
is a plain value: the parse error is caught inside parseJSON). -/
theorem C1_parse_failure_returns_undefined (P : JsonPlatform) (env : Env)
    (key : String) (init : JSVal) (s : String)
    (hw : env.hasWindow = true) (hg : env.getItemThrows = false)
    (hs : env.storage key = some s) (hne : s ≠ "") (hnu : s ≠ "undefined")
    (hp : P.parse s = Except.error ()) :
    readValue P defaultOptions env key init = (JSVal.undef, true) := by
  simp [readValue, defaultOptions, Env.getItem, hg, hs, strTruthy, parseJSON,
    hne, hnu, hp, hw]

/-- C1 witness: the amended theorem applied at the concrete refuting
environment. -/
theorem C1_witness :
    envBadItem.storage "k" = some "!!!"
    ∧ testPlatform.parse "!!!" = Except.error ()
    ∧ readValue testPlatform defaultOptions envBadItem "k" (JSVal.num 7)
        = (JSVal.undef, true) :=
  ⟨by decide, by decide,
    C1_parse_failure_returns_undefined testPlatform envBadItem "k"
      (JSVal.num 7) "!!!" (by decide) (by decide) (by decide) (by decide)
      (by decide) (by decide)⟩

/-- C2.  Round-trip: writing a value V with the setter and then reading the
same key, both with default options (JSON serialization), yields a value
equal to V.  The hypotheses say exactly that V is JSON-serializable on the
given platform: stringify succeeds, its output parses back to V, and the
output is a nonempty string other than the literal "undefined" (true of
every actual JSON.stringify result).  The environment must have a window and
non-throwing storage calls, as a write or read cannot otherwise happen. -/
theorem C2_round_trip (P : JsonPlatform) (env : Env) (key : String)
    (stored init v : JSVal) (s : String)
    (hw : env.hasWindow = true) (hg : env.getItemThrows = false)
    (hset : env.setItemThrows = false)
    (hser : P.stringify v = Except.ok s) (hne : s ≠ "")
    (hnu : s ≠ "undefined") (hpar : P.parse s = Except.ok v) :
    (readValue P defaultOptions
      (setValue P defaultOptions env key stored (Sum.inl v)).env key init).1
      = v := by
  rw [readValue_after_set P env key stored init v s hw hg hset hser hne hnu
    hpar]

/-- C2 witness: writing the number 5 to an empty storage and reading it back
through the concrete codec. -/
theorem C2_witness :
    testPlatform.stringify (JSVal.num 5) = Except.ok "5"
    ∧ testPlatform.parse "5" = Except.ok (JSVal.num 5)
    ∧ (readValue testPlatform defaultOptions
        (setValue testPlatform defaultOptions envEmpty "k" (JSVal.num 0)
          (Sum.inl (JSVal.num 5))).env "k" (JSVal.num 0)).1
        = JSVal.num 5 :=
  ⟨by decide, by decide,
    C2_round_trip testPlatform envEmpty "k" (JSVal.num 0) (JSVal.num 0)
      (JSVal.num 5) "5" (by decide) (by decide) (by decide) (by decide)
      (by decide) (by decide) (by decide)⟩

/-- C3.  The claim states that for a key absent from storage the initial
returned value equals the supplied default in every mode, raw mode included.
It fails in raw mode: getItem returns null and the raw branch returns that
null through an untyped cast, not the default.  Concrete refutation: empty
storage, default 7, raw mode — the hook does not return 7. -/
theorem C3_counterexample :
    useLocalStorageInitial testPlatform rawOptions envEmpty "k" (JSVal.num 7)
      ≠ JSVal.num 7 := by
  decide

/-- C3 amended.  For a key absent from storage the initial returned value
equals the supplied default in default JSON mode and in custom-deserializer
mode; in raw mode it is the JS null returned by getItem. -/
theorem C3_absent_key_initial (P : JsonPlatform)
    (d : String → Except Unit JSVal) (env : Env) (key : String) (init : JSVal)
    (hw : env.hasWindow = true) (hg : env.getItemThrows = false)
    (habs : env.storage key = none) :
    useLocalStorageInitial P defaultOptions env key init = init
    ∧ useLocalStorageInitial P (deserOptions d) env key init = init
    ∧ useLocalStorageInitial P rawOptions env key init = JSVal.null := by
  refine ⟨?_, ?_, ?_⟩ <;>
    simp [useLocalStorageInitial, readValue, defaultOptions, deserOptions,
      rawOptions, Env.getItem, hg, habs, strTruthy, rawCast, hw]

/-- C3 witness: the amended theorem at the empty storage with default 7 and
a concrete deserializer. -/
theorem C3_witness :
    envEmpty.storage "k" = none
    ∧ useLocalStorageInitial testPlatform defaultOptions envEmpty "k"
        (JSVal.num 7) = JSVal.num 7
    ∧ useLocalStorageInitial testPlatform
        (deserOptions (fun s => testPlatform.parse s)) envEmpty "k"
        (JSVal.num 7) = JSVal.num 7
    ∧ useLocalStorageInitial testPlatform rawOptions envEmpty "k"
        (JSVal.num 7) = JSVal.null := by
  have h := C3_absent_key_initial testPlatform
    (fun s => testPlatform.parse s) envEmpty "k" (JSVal.num 7) (by decide)
    (by decide) (by decide)
  exact ⟨by decide, h.1, h.2.1, h.2.2⟩

/-- C4.  Without a window (server-side rendering), the read path returns the
default without warning, and the setter returns immediately: it is a total
no-op that leaves the environment (hence the storage) and the component
state unchanged, dispatches nothing, and warns nothing. -/
theorem C4_no_window (P : JsonPlatform) (opts : UseLocalStorageOptions)
    (env : Env) (key : String) (init stored : JSVal)
    (value : JSVal ⊕ (JSVal → JSVal)) (hw : env.hasWindow = false) :
    readValue P opts env key init = (init, false)
    ∧ setValue P opts env key stored value = ⟨env, stored, false, false⟩ :=
  ⟨by simp [readValue, hw], by simp [setValue, hw]⟩

/-- C4 witness: a windowless environment with concrete key, default, state,
and a literal setter argument. -/
theorem C4_witness :
    Env.hasWindow ⟨false, fun _ => none, false, false⟩ = false
    ∧ readValue testPlatform defaultOptions
        ⟨false, fun _ => none, false, false⟩ "k" (JSVal.num 7)
        = (JSVal.num 7, false)
    ∧ setValue testPlatform defaultOptions
        ⟨false, fun _ => none, false, false⟩ "k" (JSVal.num 1)
        (Sum.inl (JSVal.num 5))
        = ⟨⟨false, fun _ => none, false, false⟩, JSVal.num 1, false, false⟩ := by
  have h := C4_no_window testPlatform defaultOptions
    ⟨false, fun _ => none, false, false⟩ "k" (JSVal.num 7) (JSVal.num 1)
    (Sum.inl (JSVal.num 5)) (by decide)
  exact ⟨by decide, h.1, h.2⟩

/-- C5.  The write path with a window: the new value is the updater applied
to the previous state when the argument is a function and the argument
itself otherwise (stated by the two equations on resolveAction); when its
serialization per the mode succeeds and setItem does not throw, the
serialized string is written to storage under the hook key, the new value is
mirrored into component state, and the same-document notification event is
dispatched. -/
theorem C5_write_path (P : JsonPlatform) (opts : UseLocalStorageOptions)
    (env : Env) (key : String) (stored : JSVal)
    (value : JSVal ⊕ (JSVal → JSVal)) (s : String)
    (hw : env.hasWindow = true) (hset : env.setItemThrows = false)
    (hser : serializeValue P opts (resolveAction stored value)
      = Except.ok s) :
    setValue P opts env key stored value
      = ⟨{ env with storage := setStore env.storage key s },
         resolveAction stored value, true, false⟩
    ∧ (∀ v : JSVal, resolveAction stored (Sum.inl v) = v)
    ∧ (∀ f : JSVal → JSVal, resolveAction stored (Sum.inr f) = f stored) :=
  ⟨by simp [setValue, hw, hser, hset], fun _ => rfl, fun _ => rfl⟩

/-- C5 witness: an updater function doubling the previous state 4, written
to an empty storage in default JSON mode. -/
theorem C5_witness :
    serializeValue testPlatform defaultOptions
      (resolveAction (JSVal.num 4)
        (Sum.inr (fun v => match v with
          | JSVal.num n => JSVal.num (2 * n)
          | w => w))) = Except.ok "8"
    ∧ setValue testPlatform defaultOptions envEmpty "k" (JSVal.num 4)
        (Sum.inr (fun v => match v with
          | JSVal.num n => JSVal.num (2 * n)
          | w => w))
        = ⟨{ envEmpty with storage := setStore envEmpty.storage "k" "8" },
           resolveAction (JSVal.num 4)
             (Sum.inr (fun v => match v with
               | JSVal.num n => JSVal.num (2 * n)
               | w => w)), true, false⟩ := by
  have h := C5_write_path testPlatform defaultOptions envEmpty "k"
    (JSVal.num 4)
    (Sum.inr (fun v => match v with
      | JSVal.num n => JSVal.num (2 * n)
      | w => w)) "8" (by decide) (by decide) (by decide)
  exact ⟨by decide, h.1⟩

/-- C6.  The wrapper returned by the stable-callback hook keeps one identity
across all re-renders: its useCallback dependency is the ref cell, whose
identity is fixed at mount, so the closure created at render 0 is returned
at every later render (created-at index stays 0).  And once at least one
layout effect has committed, invoking the wrapper calls the function
supplied by the latest render on the given arguments and returns its result,
whatever the earlier renders supplied. -/
theorem C6_stable_callback {α ρ : Type} (refCellId n : Nat)
    (fns : List (α → ρ)) (fn : α → ρ) (a : α)
    (hlast : fns.getLast? = some fn) :
    useCallbackCreatedAt (fun _ => refCellId) n = 0
    ∧ wrapper (refAfterRenders fns) a = Except.ok (fn a) := by
  constructor
  · induction n with
    | zero => rfl
    | succ m ih => simp [useCallbackCreatedAt, ih]
  · rw [refAfterRenders, foldl_layoutEffect_last fns fn hlast]
    rfl

/-- C6 witness: two renders supplying different functions; after the second
commit the wrapper (still the render-0 closure) calls the second function. -/
theorem C6_witness :
    ([fun m => m + 1, fun m => m * 2] : List (Nat → Nat)).getLast?
      = some (fun m => m * 2)
    ∧ useCallbackCreatedAt (fun _ => 7) 5 = 0
    ∧ wrapper (refAfterRenders ([fun m => m + 1, fun m => m * 2] :
        List (Nat → Nat))) 3 = Except.ok ((fun m : Nat => m * 2) 3) := by
  have h := C6_stable_callback 7 5
    ([fun m => m + 1, fun m => m * 2] : List (Nat → Nat))
    (fun m => m * 2) 3 rfl
  exact ⟨rfl, h.1, h.2⟩

/-- C7.  Before the first layout effect has committed the ref cell still
holds the function installed by useRef, which throws; so invoking the
wrapper during the initial render phase raises the render-phase error, for
every argument (and independently of whichever function was wrapped, since
the wrapped function only reaches the cell through the layout effect). -/
theorem C7_invoke_before_effect {α ρ : Type} (a : α) :
    wrapper (refAfterRenders ([] : List (α → ρ))) a
      = Except.error renderErrorMessage :=
  rfl

/-- An environment whose storage holds the parsable string "5" under key
"k". -/
def envK5 : Env :=
  ⟨true, fun q => if q = "k" then some "5" else none, false, false⟩

/-- C8.  The claim states that an event carrying a key different from the
hook key leaves local state unchanged.  The guard tests the event key for JS
truthiness, and the empty string is falsy: a storage event with key "" and
hook key "k" passes the guard and re-reads, changing state when storage
differs from it.  Concrete refutation: state 4, storage "k" holding "5",
event key "" — the handler moves state to 5. -/
theorem C8_counterexample :
    handleStorageChange testPlatform defaultOptions envK5 "k" (JSVal.num 0)
      (JSVal.num 4) (some "") ≠ JSVal.num 4 := by
  decide

/-- C8 amended.  The handler leaves local state unchanged when the event
carries a nonempty key different from the hook key, and re-reads from
storage when the event key equals the hook key or is absent.  Consequently,
after one instance successfully writes a serializable value in default JSON
mode, another instance watching the same key that receives the notification
(the dispatched same-document event carries no key) holds exactly the
written value. -/
theorem C8_storage_change (P : JsonPlatform) (opts : UseLocalStorageOptions)
    (env : Env) (key : String) (init stored : JSVal) (s : String)
    (stored2 v : JSVal) (sv : String)
    (hs : s ≠ "") (hne : s ≠ key)
    (hw : env.hasWindow = true) (hg : env.getItemThrows = false)
    (hset : env.setItemThrows = false)
    (hser : P.stringify v = Except.ok sv) (hne2 : sv ≠ "")
    (hnu : sv ≠ "undefined") (hpar : P.parse sv = Except.ok v) :
    handleStorageChange P opts env key init stored (some s) = stored
    ∧ handleStorageChange P opts env key init stored (some key)
        = (readValue P opts env key init).1
    ∧ handleStorageChange P opts env key init stored none
        = (readValue P opts env key init).1
    ∧ handleStorageChange P defaultOptions
        (setValue P defaultOptions env key stored2 (Sum.inl v)).env key
        init stored localStorageEventKey = v := by
  refine ⟨?_, ?_, ?_, ?_⟩
  · simp [handleStorageChange, strTruthy, hs, hne]
  · simp [handleStorageChange, strTruthy]
  · simp [handleStorageChange, strTruthy]
  · simp [handleStorageChange, strTruthy, localStorageEventKey,
      readValue_after_set P env key stored2 init v sv hw hg hset hser hne2
        hnu hpar]

/-- C8 witness: hook key "k", a foreign event key "other" leaving state 4
unchanged, re-reads on key "k" and on the keyless event, and observation of
a written 5 by a second instance. -/
theorem C8_witness :
    handleStorageChange testPlatform defaultOptions envK5 "k" (JSVal.num 0)
      (JSVal.num 4) (some "other") = JSVal.num 4
    ∧ handleStorageChange testPlatform defaultOptions envK5 "k"
        (JSVal.num 0) (JSVal.num 4) (some "k")
        = (readValue testPlatform defaultOptions envK5 "k" (JSVal.num 0)).1
    ∧ handleStorageChange testPlatform defaultOptions envK5 "k"
        (JSVal.num 0) (JSVal.num 4) none
        = (readValue testPlatform defaultOptions envK5 "k" (JSVal.num 0)).1
    ∧ handleStorageChange testPlatform defaultOptions
        (setValue testPlatform defaultOptions envK5 "k" (JSVal.num 1)
          (Sum.inl (JSVal.num 5))).env "k" (JSVal.num 0) (JSVal.num 4)
        localStorageEventKey = JSVal.num 5 :=
  C8_storage_change testPlatform defaultOptions envK5 "k" (JSVal.num 0)
    (JSVal.num 4) "other" (JSVal.num 1) (JSVal.num 5) "5" (by decide)
    (by decide) (by decide) (by decide) (by decide) (by decide) (by decide)
    (by decide) (by decide)

/-- An environment whose storage holds the empty string under key "k". -/
def envEmptyString : Env :=
  ⟨true, fun q => if q = "k" then some "" else none, false, false⟩

/-- C9.  A stored empty string is falsy, so in default JSON mode and in
custom-deserializer mode the read path takes the absent-item branch: it
returns the default without warning, and the deserializer is never invoked
(the result is the same for every deserializer d, including a throwing
one). -/
theorem C9_empty_string_as_absent (P : JsonPlatform)
    (d : String → Except Unit JSVal) (env : Env) (key : String) (init : JSVal)
    (hw : env.hasWindow = true) (hg : env.getItemThrows = false)
    (hempty : env.storage key = some "") :
    readValue P defaultOptions env key init = (init, false)
    ∧ readValue P (deserOptions d) env key init = (init, false) := by
  constructor <;>
    simp [readValue, defaultOptions, deserOptions, Env.getItem, hg, hempty,
      strTruthy, hw]

/-- C9 witness: key "k" holding the empty string, default 7, and a throwing
deserializer that is nevertheless never reached. -/
theorem C9_witness :
    envEmptyString.storage "k" = some ""
    ∧ readValue testPlatform defaultOptions envEmptyString "k" (JSVal.num 7)
        = (JSVal.num 7, false)
    ∧ readValue testPlatform (deserOptions (fun _ => Except.error ()))
        envEmptyString "k" (JSVal.num 7) = (JSVal.num 7, false) := by
  have h := C9_empty_string_as_absent testPlatform
    (fun _ => Except.error ()) envEmptyString "k" (JSVal.num 7) (by decide)
    (by decide) (by decide)
  exact ⟨by decide, h.1, h.2⟩

/-- C10.  A successful local write dispatches the same-document event; that
event is a plain Event carrying no key; and on a keyless event the handler
of every mounted instance, whatever its hook key, re-reads its own value
from storage (the key filter can only act on events that carry a truthy
key). -/
theorem C10_keyless_local_event (P : JsonPlatform)
    (opts : UseLocalStorageOptions) (env env2 : Env) (key key2 : String)
    (stored init2 stored2 : JSVal) (value : JSVal ⊕ (JSVal → JSVal))
    (s : String)
    (hw : env.hasWindow = true) (hset : env.setItemThrows = false)
    (hser : serializeValue P opts (resolveAction stored value)
      = Except.ok s) :
    (setValue P opts env key stored value).dispatched = true
    ∧ localStorageEventKey = none
    ∧ handleStorageChange P opts env2 key2 init2 stored2
        localStorageEventKey = (readValue P opts env2 key2 init2).1 := by
  refine ⟨?_, rfl, ?_⟩
  · simp [setValue, hw, hser, hset]
  · simp [handleStorageChange, strTruthy, localStorageEventKey]

/-- C10 witness: a write under key "a" dispatches the keyless event, and an
instance watching the unrelated key "k" re-reads on it. -/
theorem C10_witness :
    (setValue testPlatform defaultOptions envEmpty "a" (JSVal.num 1)
      (Sum.inl (JSVal.num 5))).dispatched = true
    ∧ localStorageEventKey = none
    ∧ handleStorageChange testPlatform defaultOptions envK5 "k"
        (JSVal.num 0) (JSVal.num 4) localStorageEventKey
        = (readValue testPlatform defaultOptions envK5 "k" (JSVal.num 0)).1 :=
  C10_keyless_local_event testPlatform defaultOptions envEmpty envK5 "a" "k"
    (JSVal.num 1) (JSVal.num 0) (JSVal.num 4) (Sum.inl (JSVal.num 5)) "5"
    (by decide) (by decide) (by decide)
